import Mathlib

/-!
Shallow embedding of the conversation orchestration engine of the
lic-sales-agent repository, together with proofs settling the frozen
claims about it.

Conventions used throughout:
* Python `Optional[str]` fields are modelled as `Option String`; Python
  truthiness of such a field (`if x:`) is `pyTruthy`.
* Python exceptions are modelled with `Except`; machine integers do not
  occur in the modelled code paths (all counters are unbounded Python ints,
  so `Nat` is exact).
* Every definition is translated from the source file named in its doc
  comment.
-/

namespace LicAgent

/-- Python truthiness of an `Optional[str]` value: `None` and `""` are falsy. -/
def pyTruthy : Option String → Bool
  | none => false
  | some s => s ≠ ""

/-! ## Session data model — `app/src/services/session_manager.py` -/

/-- Source `ConversationStage` enum (session_manager.py, lines 14-22). -/
inductive ConversationStage
  | introduction
  | qualification
  | information
  | persuasion
  | objectionHandling
  | informationCollection
  | closing
  | ended
  deriving DecidableEq, Repr

/-- Source `InterestLevel` enum (session_manager.py, lines 25-29). -/
inductive InterestLevel
  | none
  | low
  | medium
  | high
  deriving DecidableEq, Repr

/-- Source `CustomerProfile` dataclass (session_manager.py, lines 32-42). -/
structure CustomerProfile where
  age : Option Nat := Option.none
  current_coverage : Option String := Option.none
  purpose : Option String := Option.none
  coverage_amount_interest : Option String := Option.none
  dependents : Option String := Option.none
  name : Option String := Option.none
  phone : Option String := Option.none
  email : Option String := Option.none
  address : Option String := Option.none
  deriving DecidableEq, Repr

/-- Source `CollectedData` dataclass (session_manager.py, lines 45-54). -/
structure CollectedData where
  full_name : Option String := Option.none
  phone_number : Option String := Option.none
  nid : Option String := Option.none
  address : Option String := Option.none
  policy_of_interest : Option String := Option.none
  email : Option String := Option.none
  preferred_contact_time : Option String := Option.none
  notes : Option String := Option.none
  deriving DecidableEq, Repr

/-- Source `CollectedData.is_complete` (session_manager.py, lines 56-65):
`all([...])` over the five mandatory fields, using Python truthiness. -/
def CollectedData.is_complete (d : CollectedData) : Bool :=
  pyTruthy d.full_name && pyTruthy d.phone_number && pyTruthy d.nid &&
    pyTruthy d.address && pyTruthy d.policy_of_interest

/-- Source `SessionState` dataclass (session_manager.py, lines 68-81); the two
timestamp fields are carried separately by the serialization model below. -/
structure SessionState where
  session_id : String
  conversation_id : Nat
  conversation_stage : ConversationStage := ConversationStage.introduction
  customer_profile : CustomerProfile := {}
  collected_data : CollectedData := {}
  interest_level : InterestLevel := InterestLevel.none
  message_count : Nat := 0
  context_summary : String := ""
  awaiting_confirmation : Bool := false
  confirmation_attempts : Nat := 0
  deriving DecidableEq, Repr

/-! ## Retry coordinator — `app/src/services/retry_service.py` -/

/-- Outcome of one `retry_with_backoff` run: the returned value or raised
exception, together with how many times the operation was invoked and how
many backoff sleeps were performed. -/
structure RetryOutcome (E A : Type) where
  result : Except (Option E) A
  calls : Nat
  delays : Nat

/-- Loop body of `RetryService.retry_with_backoff` (retry_service.py, lines
74-129).  `op i` is the outcome of the `i`-th invocation (attempts counted
from 1, as in the source); `nonRet e` models membership in
`non_retryable_exceptions` (an empty/None list is the constantly-false
predicate, matching `if non_retryable_exceptions:`); `retryable e` models
membership in `retryable_exceptions`.  `fuel` counts the remaining loop
iterations of `for attempt in range(1, max_attempts + 1)`, and `last` is
`last_exception`, raised (or a generic error, `Except.error none`) if the
loop falls through (retry_service.py, lines 131-134). -/
def retryAux {E A : Type} (op : Nat → Except E A) (retryable nonRet : E → Bool)
    (maxAttempts : Nat) : Nat → Nat → Option E → RetryOutcome E A
  | _, 0, last => ⟨Except.error last, 0, 0⟩
  | attempt, fuel + 1, _ =>
    match op attempt with
    | Except.ok a => ⟨Except.ok a, 1, 0⟩
    | Except.error e =>
      if nonRet e then ⟨Except.error (some e), 1, 0⟩
      else if retryable e = false then ⟨Except.error (some e), 1, 0⟩
      else if maxAttempts ≤ attempt then ⟨Except.error (some e), 1, 0⟩
      else
        let r := retryAux op retryable nonRet maxAttempts (attempt + 1) fuel (some e)
        ⟨r.result, r.calls + 1, r.delays + 1⟩

/-- Source `RetryService.retry_with_backoff` (retry_service.py, lines 46-134):
runs the retry loop starting at attempt 1 with `max_attempts` iterations
available and `last_exception = None`. -/
def retry_with_backoff {E A : Type} (maxAttempts : Nat) (op : Nat → Except E A)
    (retryable nonRet : E → Bool) : RetryOutcome E A :=
  retryAux op retryable nonRet maxAttempts 1 maxAttempts none

section RetryLemmas

variable {E A : Type}

/-- If attempts `attempt, …, attempt+j-1` fail retryably and attempt
`attempt+j` succeeds (all within `maxAttempts`), the loop returns the
success value after `j+1` calls and `j` sleeps. -/
theorem retryAux_succeeds (op : Nat → Except E A) (retryable nonRet : E → Bool)
    (maxAttempts : Nat) (v : A) :
    ∀ (j attempt fuel : Nat) (last : Option E),
      (∀ i, attempt ≤ i → i < attempt + j →
        ∃ e, op i = Except.error e ∧ retryable e = true ∧ nonRet e = false) →
      op (attempt + j) = Except.ok v →
      attempt + j ≤ maxAttempts →
      j + 1 ≤ fuel →
      retryAux op retryable nonRet maxAttempts attempt fuel last =
        ⟨Except.ok v, j + 1, j⟩ := by
  intro j
  induction j with
  | zero =>
    intro attempt fuel last _ hok _ hfuel
    match fuel, hfuel with
    | fuel + 1, _ =>
      simp only [retryAux]
      rw [show attempt + 0 = attempt from rfl] at hok
      rw [hok]
  | succ j ih =>
    intro attempt fuel last hfail hok hle hfuel
    match fuel, hfuel with
    | fuel + 1, hfuel =>
      obtain ⟨e, he, hr, hn⟩ := hfail attempt (Nat.le_refl _) (by omega)
      simp only [retryAux, he, hn, hr]
      have hlt : ¬ maxAttempts ≤ attempt := by omega
      simp only [if_false, hlt, Bool.true_eq_false]
      have := ih (attempt + 1) fuel (some e)
        (fun i h1 h2 => hfail i (by omega) (by omega))
        (by rw [show attempt + 1 + j = attempt + (j + 1) from by omega]; exact hok)
        (by omega) (by omega)
      simp [this]

/-- If every attempt from `attempt` through `maxAttempts` fails retryably,
the loop raises the error of attempt `maxAttempts` after
`maxAttempts - attempt + 1` calls and `maxAttempts - attempt` sleeps. -/
theorem retryAux_exhausts (op : Nat → Except E A) (retryable nonRet : E → Bool)
    (maxAttempts : Nat) (err : Nat → E) :
    ∀ (j attempt fuel : Nat) (last : Option E),
      (∀ i, attempt ≤ i → i ≤ attempt + j →
        op i = Except.error (err i) ∧ retryable (err i) = true ∧ nonRet (err i) = false) →
      attempt + j = maxAttempts →
      j + 1 ≤ fuel →
      retryAux op retryable nonRet maxAttempts attempt fuel last =
        ⟨Except.error (some (err maxAttempts)), j + 1, j⟩ := by
  intro j
  induction j with
  | zero =>
    intro attempt fuel last hfail hmax hfuel
    match fuel, hfuel with
    | fuel + 1, _ =>
      obtain ⟨he, hr, hn⟩ := hfail attempt (Nat.le_refl _) (by omega)
      simp only [retryAux, he, hn, hr]
      have hge : maxAttempts ≤ attempt := by omega
      simp only [hge, if_true, Bool.true_eq_false, if_false]
      rw [← hmax]
      simp
  | succ j ih =>
    intro attempt fuel last hfail hmax hfuel
    match fuel, hfuel with
    | fuel + 1, hfuel =>
      obtain ⟨he, hr, hn⟩ := hfail attempt (Nat.le_refl _) (by omega)
      simp only [retryAux, he, hn, hr]
      have hlt : ¬ maxAttempts ≤ attempt := by omega
      simp only [if_false, hlt, Bool.true_eq_false]
      have := ih (attempt + 1) fuel (some (err attempt))
        (fun i h1 h2 => hfail i (by omega) (by omega))
        (by omega) (by omega)
      simp [this]

end RetryLemmas

/-- Unfolds Python truthiness of an optional string into a proposition. -/
theorem pyTruthy_iff (o : Option String) :
    pyTruthy o = true ↔ ∃ s, o = some s ∧ s ≠ "" := by
  cases o <;> simp [pyTruthy]

/-- A concrete retried operation that fails on attempts 1 and 2 and succeeds
on attempt 3; used by the C1 witness. -/
def retryOpEventuallyOk : Nat → Except String Nat :=
  fun i => if i ≤ 2 then Except.error "boom" else Except.ok 7

/-- A concrete retried operation that fails on every attempt; used by the C1
witness. -/
def retryOpAlwaysFails : Nat → Except String Nat :=
  fun _ => Except.error "boom"

/-- C1: for any retry configuration with `maxAttempts ≥ 1`, (a) if the
operation fails retryably on its first `k` invocations (`k < maxAttempts`)
and succeeds on invocation `k+1`, `retry_with_backoff` returns the success
value, invoking the operation `k+1` times with exactly `k` delays; (b) if
every invocation fails retryably, it invokes the operation exactly
`maxAttempts` times, waits exactly `maxAttempts - 1` delays, and raises the
last error rather than returning any default value. -/
theorem retry_with_backoff_spec {E A : Type} (maxAttempts : Nat)
    (op : Nat → Except E A) (retryable nonRet : E → Bool)
    (hmax : 1 ≤ maxAttempts) :
    (∀ (k : Nat) (v : A), k < maxAttempts →
      (∀ i, 1 ≤ i → i ≤ k →
        ∃ e, op i = Except.error e ∧ retryable e = true ∧ nonRet e = false) →
      op (k + 1) = Except.ok v →
      retry_with_backoff maxAttempts op retryable nonRet =
        ⟨Except.ok v, k + 1, k⟩) ∧
    (∀ err : Nat → E,
      (∀ i, 1 ≤ i → i ≤ maxAttempts →
        op i = Except.error (err i) ∧ retryable (err i) = true ∧
          nonRet (err i) = false) →
      retry_with_backoff maxAttempts op retryable nonRet =
        ⟨Except.error (some (err maxAttempts)), maxAttempts, maxAttempts - 1⟩) := by
  constructor
  · intro k v hk hfail hok
    unfold retry_with_backoff
    have := retryAux_succeeds op retryable nonRet maxAttempts v k 1 maxAttempts none
      (fun i h1 h2 => hfail i h1 (by omega))
      (by rw [show 1 + k = k + 1 from by omega]; exact hok)
      (by omega) (by omega)
    exact this
  · intro err hfail
    unfold retry_with_backoff
    have := retryAux_exhausts op retryable nonRet maxAttempts err (maxAttempts - 1)
      1 maxAttempts none
      (fun i h1 h2 => hfail i h1 (by omega))
      (by omega) (by omega)
    rw [this]
    congr 1
    omega

/-- Witness for C1 at `maxAttempts = 3`: two failures then a success yields
the success value with 3 calls and 2 delays; constant failure yields the
last error with 3 calls and 2 delays. -/
theorem retry_with_backoff_spec_witness :
    (1 ≤ 3) ∧
    retry_with_backoff 3 retryOpEventuallyOk (fun _ => true) (fun _ => false) =
      ⟨Except.ok 7, 3, 2⟩ ∧
    retry_with_backoff 3 retryOpAlwaysFails (fun _ => true) (fun _ => false) =
      ⟨Except.error (some "boom"), 3, 2⟩ := by
  refine ⟨by omega, ?_, ?_⟩
  · exact (retry_with_backoff_spec 3 retryOpEventuallyOk
        (fun _ => true) (fun _ => false) (by omega)).1 2 7 (by omega)
      (by
        intro i h1 h2
        refine ⟨"boom", ?_, rfl, rfl⟩
        interval_cases i <;> rfl)
      rfl
  · exact (retry_with_backoff_spec 3 retryOpAlwaysFails
        (fun _ => true) (fun _ => false) (by omega)).2 (fun _ => "boom")
      (fun i _ _ => ⟨rfl, rfl, rfl⟩)

/-- C8: `CollectedData.is_complete` is true exactly when the five mandatory
fields (full name, phone number, national ID, address, policy of interest)
are all non-empty, and its value does not depend on the optional email,
preferred-contact-time, and notes fields. -/
theorem is_complete_spec (d : CollectedData)
    (e pct n : Option String) :
    (d.is_complete = true ↔
      ((∃ s, d.full_name = some s ∧ s ≠ "") ∧
       (∃ s, d.phone_number = some s ∧ s ≠ "") ∧
       (∃ s, d.nid = some s ∧ s ≠ "") ∧
       (∃ s, d.address = some s ∧ s ≠ "") ∧
       (∃ s, d.policy_of_interest = some s ∧ s ≠ ""))) ∧
    CollectedData.is_complete
        { d with email := e, preferred_contact_time := pct, notes := n } =
      d.is_complete := by
  constructor
  · simp [CollectedData.is_complete, Bool.and_eq_true, pyTruthy_iff, and_assoc]
  · rfl

/-! ## Python string primitives

The services below manipulate Python `str` values with `.lower()`, the `in`
substring test, `.replace`, `.split()`/`" ".join(...)`, and `.strip()`.
They are modelled here on `List Char` (all strings involved are ASCII, for
which Python and Lean lower-casing agree) and wrapped for `String`. -/

/-- Python's whitespace set for `str.split()` / `str.strip()`. -/
def pyIsSpace (c : Char) : Bool :=
  c = ' ' || c = '\t' || c = '\n' || c = '\r' || c = '\x0b' || c = '\x0c'

/-- Whether `pat` occurs at the start of `s`. -/
def leadsWith : List Char → List Char → Bool
  | [], _ => true
  | _ :: _, [] => false
  | p :: ps, c :: cs => p = c && leadsWith ps cs

/-- Python `pat in s` substring test (scan left to right). -/
def containsSub : List Char → List Char → Bool
  | s, pat =>
    match s with
    | [] => pat.isEmpty
    | _ :: rest => leadsWith pat s || containsSub rest pat

/-- Python `s.replace(pat, rep)` for a non-empty `pat`: leftmost-first,
non-overlapping, and the replacement text is not rescanned.  Structural
recursion on a fuel bounding the characters still to scan (each step
consumes at least one character, so `fuel = s.length` is enough; with fuel
left over the remaining characters are kept unchanged, which never happens
when starting with full fuel and a non-empty pattern). -/
def replaceFuel (pat rep : List Char) : Nat → List Char → List Char
  | 0, s => s
  | fuel + 1, s =>
    match s with
    | [] => []
    | c :: rest =>
      if !pat.isEmpty && leadsWith pat s then
        rep ++ replaceFuel pat rep fuel (s.drop pat.length)
      else
        c :: replaceFuel pat rep fuel rest

/-- Python `s.split()`: split on runs of whitespace, dropping empty parts.
`acc` holds the current word reversed. -/
def splitWsAux : List Char → List Char → List (List Char)
  | [], acc => if acc.isEmpty then [] else [acc.reverse]
  | c :: rest, acc =>
    if pyIsSpace c then
      if acc.isEmpty then splitWsAux rest [] else acc.reverse :: splitWsAux rest []
    else splitWsAux rest (c :: acc)

/-- Python `s.strip()`. -/
def stripChars (s : List Char) : List Char :=
  ((s.dropWhile pyIsSpace).reverse.dropWhile pyIsSpace).reverse

/-- Python `s.lower()` (ASCII). -/
def pyLower (s : String) : String :=
  String.mk (s.data.map Char.toLower)

/-- Python `pat in s` on `String`. -/
def pyContains (s pat : String) : Bool :=
  containsSub s.data pat.data

/-- Python `s.replace(pat, rep)` on `String`. -/
def pyReplace (s pat rep : String) : String :=
  String.mk (replaceFuel pat.data rep.data s.data.length s.data)

/-- Python `" ".join(s.split())`. -/
def pyJoinSplit (s : String) : String :=
  String.mk (List.intercalate [' '] (splitWsAux s.data []))

/-- Python `s.strip()` on `String`. -/
def pyStrip (s : String) : String :=
  String.mk (stripChars s.data)

/-- Python `any(kw in s for kw in kws)`. -/
def anyKeywordIn (kws : List String) (s : String) : Bool :=
  kws.any (fun kw => pyContains s kw)

/-! ## Response filter — `app/src/llm/response_filter.py` -/

/-- Source `ResponseFilter.BLOCKED_PHRASES` (response_filter.py, lines 9-33). -/
def BLOCKED_PHRASES : List String :=
  ["guaranteed approval", "guaranteed coverage", "no questions asked",
   "instant approval",
   "must buy now", "limited time only", "act immediately", "don't miss out",
   "must buy", "act now or lose",
   "will cure", "medical advice", "diagnose",
   "guaranteed returns", "risk-free", "no risk"]

/-- Source `ResponseFilter.PROHIBITED_CONTENT` (response_filter.py, lines 35-40). -/
def PROHIBITED_CONTENT : List String :=
  ["discrimination", "illegal advice", "false claims", "misleading information"]

/-- Source `ResponseFilter.filter_response` (response_filter.py, lines 42-69):
per blocked phrase, if `phrase.lower() in filtered.lower()` then
`filtered = filtered.replace(phrase, "").replace(phrase.lower(), "")`;
then the prohibited-content check on the lowered text replaces the whole
response; then the "I am human" correction; then
`" ".join(filtered.split())` and a final `.strip()`. -/
def filter_response (response : String) : String :=
  let filtered := BLOCKED_PHRASES.foldl
    (fun acc phrase =>
      if pyContains (pyLower acc) (pyLower phrase) then
        pyReplace (pyReplace acc phrase "") (pyLower phrase) ""
      else acc)
    response
  let response_lower := pyLower filtered
  if PROHIBITED_CONTENT.any (fun content => pyContains response_lower content) then
    "I apologize, but I can't provide that type of information. Let me help you with something else."
  else
    let filtered :=
      if pyContains filtered "I am" && pyContains (pyLower filtered) "human" then
        pyReplace (pyReplace filtered "I am human" "I am an AI assistant")
          "i am human" "I am an AI assistant"
      else filtered
    pyStrip (pyJoinSplit filtered)

/-- C5 (failing input): `filter_response` leaves the mixed-case input
"Guaranteed Approval" unchanged — the blocked-phrase scan detects the phrase
case-insensitively but only removes exact-case and lower-case occurrences —
so the filtered output still contains "guaranteed approval" as a
case-insensitive substring. -/
theorem filter_response_mixed_case_gap :
    filter_response "Guaranteed Approval" = "Guaranteed Approval" ∧
    pyContains (pyLower (filter_response "Guaranteed Approval"))
      (pyLower "guaranteed approval") = true := by
  constructor
  · decide
  · decide

/-! ## Fallback service — `app/src/services/fallback_service.py` -/

/-- Source `FallbackService.STAGE_FALLBACKS[stage]["message"]` (fallback_service.py,
lines 10-43); the dictionary has an entry for every stage. -/
def stageFallbackMessage : ConversationStage → String
  | ConversationStage.introduction =>
    "Hello! I'm here to help you learn about life insurance. How can I assist you today?"
  | ConversationStage.qualification =>
    "I'd like to understand your needs better. Could you tell me a bit about your situation? For example, are you looking to protect your family, plan for retirement, or something else?"
  | ConversationStage.information =>
    "I can help you learn more about our life insurance options. Would you like information about term life, whole life, or universal life insurance?"
  | ConversationStage.persuasion =>
    "Life insurance is an important way to protect your loved ones and provide financial security. Would you like to explore coverage options that fit your needs?"
  | ConversationStage.objectionHandling =>
    "I understand your concerns. Life insurance can seem complex, but I'm here to help answer any questions you have. What would you like to know more about?"
  | ConversationStage.informationCollection =>
    "To help you get the best coverage, I'll need some basic information. This includes your name, contact information, and some details about your insurance needs. Shall we continue?"
  | ConversationStage.closing =>
    "Based on what you've told me, I believe we can find a policy that meets your needs. Would you like to proceed with getting a quote?"
  | ConversationStage.ended =>
    "Thank you for your time. If you have any questions in the future, please feel free to reach out. Have a great day!"

/-- Source `FallbackService.GENERIC_FALLBACKS` (fallback_service.py, lines 46-50). -/
def GENERIC_FALLBACKS : List String :=
  ["I'm having a technical issue right now, but I'd still like to help. Could you rephrase your question or let me know what you'd like to know about life insurance?",
   "I'm experiencing a temporary technical problem. Please try asking your question again, or let me know if there's something specific about life insurance you'd like to learn about.",
   "I apologize for the technical issue. To better assist you, could you tell me what you're looking for? For example, are you interested in learning about our policies, getting a quote, or have specific questions?"]

/-- Source `FallbackService.INTENT_FALLBACKS` lookup (fallback_service.py, lines
53-59): string-keyed dictionary with five entries. -/
def intentFallback (intent : String) : Option String :=
  if intent = "greeting" then
    some "Hello! I'm here to help you with life insurance. How can I assist you today?"
  else if intent = "question" then
    some "I'd be happy to answer your question. Could you please provide a bit more detail?"
  else if intent = "interest" then
    some "That's great to hear! I'd love to help you find the right life insurance policy. What would you like to know more about?"
  else if intent = "objection" then
    some "I understand your concerns. Let me try to address them. Could you tell me what specifically concerns you about life insurance?"
  else if intent = "information_request" then
    some "I can provide information about our life insurance options. Are you interested in term life, whole life, or universal life insurance?"
  else
    none

/-- The intent-specific step of `get_fallback_response` (fallback_service.py,
line 85): `if intent and intent in self.INTENT_FALLBACKS:` — the intent must
be truthy (non-None, non-empty) and a key of the dictionary. -/
def intentStep (intent : Option String) : Option String :=
  match intent with
  | some i => if i ≠ "" then intentFallback i else none
  | none => none

/-- The interest-level / generic tail of `get_fallback_response`
(fallback_service.py, lines 88-99): `if interest_level:` is true even for
`InterestLevel.NONE` (its string value "none" is truthy) but only
HIGH/MEDIUM/LOW select a message, so NONE falls through to the generic
pool, as does an absent interest level. -/
def interestStep (interest_level : Option InterestLevel) (randPick : Fin 3) : String :=
  match interest_level with
  | some InterestLevel.high =>
    "I'm currently experiencing a technical issue, but I'm very interested in helping you find the right life insurance policy. Could you please try asking your question again, or let me know what specific coverage you're looking for?"
  | some InterestLevel.medium =>
    "I apologize for the technical difficulty. I'd still like to help you explore life insurance options. What would you like to know more about?"
  | some InterestLevel.low =>
    "I'm having a temporary technical issue. If you're curious about life insurance, I'd be happy to answer any questions once the issue is resolved. Please try again in a moment."
  | _ =>
    GENERIC_FALLBACKS.get ⟨randPick, by cases randPick with | mk v h => simpa [GENERIC_FALLBACKS] using h⟩

/-- Source `FallbackService.get_fallback_response` (fallback_service.py, lines
61-99).  `stage`/`intent`/`interest_level` are the optional arguments
(`None` is `Option.none`; a `ConversationStage` enum value is always truthy
because its string value is non-empty, so
`if stage and stage in self.STAGE_FALLBACKS:` reduces to presence, and the
dictionary covers all eight stages).  `randPick` models
`random.choice(self.GENERIC_FALLBACKS)`. -/
def get_fallback_response (stage : Option ConversationStage)
    (intent : Option String) (interest_level : Option InterestLevel)
    (randPick : Fin 3) : String :=
  match stage with
  | some st => stageFallbackMessage st
  | none =>
    match intentStep intent with
    | some m => m
    | none => interestStep interest_level randPick

/-- Source `FallbackService.get_llm_error_message` without a retry hint
(fallback_service.py, lines 101-113). -/
def get_llm_error_message : String :=
  "I'm experiencing a temporary technical issue. Please try again in a moment, or rephrase your question."

/-- Source `FallbackService.get_database_error_message` (fallback_service.py, lines
115-127). -/
def get_database_error_message (operation : String) : String :=
  if pyContains (pyLower operation) "save" || pyContains (pyLower operation) "create" then
    "I'm experiencing a temporary issue saving your information. Please try again in a moment, and your information will be saved."
  else
    "I'm experiencing a temporary technical issue. Please try again in a moment."

/-- C6: `get_fallback_response` returns a non-empty string for every
combination of optional stage, intent, interest level, and generic-pool
pick — including all-absent inputs — and whenever a stage is supplied the
stage-specific canned message is returned regardless of the other
arguments. -/
theorem get_fallback_response_spec (stage : Option ConversationStage)
    (intent : Option String) (interest_level : Option InterestLevel)
    (randPick : Fin 3) :
    get_fallback_response stage intent interest_level randPick ≠ "" ∧
    (∀ st, stage = some st →
      get_fallback_response stage intent interest_level randPick =
        stageFallbackMessage st) := by
  have hInterest : interestStep interest_level randPick ≠ "" := by
    cases interest_level with
    | none => fin_cases randPick <;> decide
    | some lvl =>
      cases lvl with
      | none => fin_cases randPick <;> decide
      | low => simp only [interestStep]; decide
      | medium => simp only [interestStep]; decide
      | high => simp only [interestStep]; decide
  have hIntent : ∀ i m, intentFallback i = some m → m ≠ "" := by
    intro i m h
    unfold intentFallback at h
    split at h
    · injection h with h; rw [← h]; decide
    · split at h
      · injection h with h; rw [← h]; decide
      · split at h
        · injection h with h; rw [← h]; decide
        · split at h
          · injection h with h; rw [← h]; decide
          · split at h
            · injection h with h; rw [← h]; decide
            · exact absurd h (by simp)
  constructor
  · cases stage with
    | some st => cases st <;> simp [get_fallback_response, stageFallbackMessage]
    | none =>
      show (match intentStep intent with
            | some m => m
            | none => interestStep interest_level randPick) ≠ ""
      cases hm : intentStep intent with
      | none => simpa using hInterest
      | some m =>
        simp only []
        unfold intentStep at hm
        cases intent with
        | none => exact absurd hm (by simp)
        | some i =>
          have hm' : (if i ≠ "" then intentFallback i else none) = some m := hm
          by_cases hi : i ≠ ""
          · rw [if_pos hi] at hm'
            exact hIntent i m hm'
          · rw [if_neg hi] at hm'
            exact absurd hm' (by simp)
  · intro st hst
    subst hst
    rfl

/-- Witness for C6: with no stage, no intent, no interest level and the
first generic pick, the fallback is non-empty; with the Closing stage
supplied it is the Closing canned message. -/
theorem get_fallback_response_spec_witness :
    (get_fallback_response Option.none Option.none Option.none 0 ≠ "" ∧
      (∀ st, (Option.none : Option ConversationStage) = some st →
        get_fallback_response Option.none Option.none Option.none 0 =
          stageFallbackMessage st)) ∧
    get_fallback_response (some ConversationStage.closing) Option.none
        Option.none 0 =
      stageFallbackMessage ConversationStage.closing := by
  constructor
  · exact get_fallback_response_spec Option.none Option.none Option.none 0
  · exact (get_fallback_response_spec (some ConversationStage.closing)
      Option.none Option.none 0).2 ConversationStage.closing rfl

/-! ## Context manager — `app/src/llm/context_manager.py` -/

/-- Source `Message` (llm_provider.py): a role/content pair sent to the LLM. -/
structure Msg where
  role : String
  content : String
  deriving DecidableEq, Repr

/-- Python `s[:n]` on a string. -/
def strTake (s : String) (n : Nat) : String :=
  String.mk (s.data.take n)

/-- Source `ContextManager.MAX_CONTEXT_MESSAGES` (context_manager.py, line 17). -/
def MAX_CONTEXT_MESSAGES : Nat := 50

/-- Source `ContextManager.MAX_CONTEXT_TOKENS` (context_manager.py, line 18). -/
def MAX_CONTEXT_TOKENS : Nat := 8000

/-- Source `ContextManager._estimate_tokens` (context_manager.py, lines 114-117):
total character count of all message contents, floor-divided by 4. -/
def estimate_tokens (messages : List Msg) : Nat :=
  (messages.map (fun m => m.content.length)).sum / 4

/-- The default used for Python's (guarded, hence never failing) `[0]` and
`[-1]` indexing in `_compress_context`. -/
def emptyMsg : Msg := ⟨"", ""⟩

/-- The slice `messages[len(system_msgs):-30]` of `_compress_context`
(context_manager.py, line 125). -/
def compressMiddle (messages : List Msg) (sysLen : Nat) : List Msg :=
  (messages.drop sysLen).take (messages.length - 30 - sysLen)

/-- The summary text `_compress_context` builds from the discarded middle
messages (context_manager.py, line 128). -/
def compressSummary (middle : List Msg) : String :=
  "Previous conversation (" ++ toString middle.length ++ " messages): " ++
    strTake (middle.headD emptyMsg).content 100 ++ "... " ++
    strTake (middle.getLastD emptyMsg).content 100

/-- Source `ContextManager._compress_context` (context_manager.py, lines 119-134):
keeps the messages with role "system" and the last 30 messages
(`messages[-30:]`), and if the slice `messages[len(system_msgs):-30]` is
non-empty appends one synthetic summary message built from the first 100
characters of its first and last elements. -/
def compress_context (messages : List Msg) : List Msg :=
  if (compressMiddle messages
      (messages.filter (fun m => m.role == "system")).length).isEmpty then
    messages.filter (fun m => m.role == "system") ++
      messages.drop (messages.length - 30)
  else
    (messages.filter (fun m => m.role == "system") ++
      [⟨"system", "Conversation summary: " ++
        compressSummary (compressMiddle messages
          (messages.filter (fun m => m.role == "system")).length)⟩]) ++
      messages.drop (messages.length - 30)

/-- The customer-profile dictionary handed to `build_context` by
`ConversationService.process_message` (conversation_service.py, lines
273-282); `Option.none` models an absent or `None` value.  `_format_profile`
only reads the five keys below. -/
structure ProfileDict where
  age : Option Nat := Option.none
  name : Option String := Option.none
  purpose : Option String := Option.none
  dependents : Option String := Option.none
  coverage_amount_interest : Option String := Option.none
  deriving DecidableEq, Repr

/-- Python truthiness of an `Optional[int]`: `None` and `0` are falsy. -/
def pyTruthyNat : Option Nat → Bool
  | Option.none => false
  | some n => n ≠ 0

/-- Source `ContextManager._format_profile` (context_manager.py, lines 85-98). -/
def format_profile (p : ProfileDict) : String :=
  let parts : List String :=
    (if pyTruthyNat p.age then ["Age: " ++ toString (p.age.getD 0)] else []) ++
    (if pyTruthy p.name then ["Name: " ++ p.name.getD ""] else []) ++
    (if pyTruthy p.purpose then ["Purpose: " ++ p.purpose.getD ""] else []) ++
    (if pyTruthy p.dependents then ["Dependents: " ++ p.dependents.getD ""] else []) ++
    (if pyTruthy p.coverage_amount_interest then
      ["Coverage interest: " ++ p.coverage_amount_interest.getD ""] else [])
  if parts.isEmpty then "No profile information"
  else String.intercalate ", " parts

/-- A policy dictionary as consumed by `_format_policies`
(context_manager.py, lines 100-112).  The numeric coverage/premium values
are carried as their rendered display strings (the embedding does not model
Python float formatting; none of the settled claims depends on it). -/
structure PolicyDict where
  name : Option String := Option.none
  coverage_amount : Option String := Option.none
  monthly_premium : Option String := Option.none
  deriving DecidableEq, Repr

/-- Source `ContextManager._format_policies` (context_manager.py, lines 100-112). -/
def format_policies (policies : List PolicyDict) : String :=
  if policies.isEmpty then "No policies available"
  else
    String.intercalate "\n" ((policies.take 5).map (fun p =>
      "- " ++ p.name.getD "Unknown" ++ ": Coverage: " ++
        p.coverage_amount.getD "N/A" ++ ", Premium: $" ++
        p.monthly_premium.getD "N/A" ++ "/month"))

/-- The block of system messages `build_context` places before the
conversational history (context_manager.py, lines 37-58): the earlier
conversation summary if one exists, the formatted customer profile if the
profile dict is truthy, and the formatted policies if any. -/
def systemBlock (context_summary : String) (customer_profile : Option ProfileDict)
    (policies : List PolicyDict) : List Msg :=
  (if context_summary ≠ "" then
    [⟨"system", "Earlier conversation summary: " ++ context_summary⟩] else []) ++
  (match customer_profile with
   | some p => [⟨"system", "Customer profile: " ++ format_profile p⟩]
   | Option.none => []) ++
  (if policies.isEmpty then []
   else [⟨"system", "Available policies: " ++ format_policies policies⟩])

/-- Source `ContextManager.build_context` (context_manager.py, lines 20-83),
returning the assembled message list: the system block, then the last
`MAX_CONTEXT_MESSAGES` history messages, compressed by
`_compress_context` when the token estimate exceeds
`MAX_CONTEXT_TOKENS`.  `customer_profile = Option.none` models a falsy
(empty or `None`) profile dict. -/
def build_context (context_summary : String) (customer_profile : Option ProfileDict)
    (policies : List PolicyDict) (message_history : List Msg) : List Msg :=
  let recent_messages := message_history.drop (message_history.length - MAX_CONTEXT_MESSAGES)
  let messages := systemBlock context_summary customer_profile policies ++ recent_messages
  if MAX_CONTEXT_TOKENS < estimate_tokens messages then compress_context messages
  else messages

/-- Every message in the system block has role "system". -/
theorem systemBlock_roles (context_summary : String)
    (customer_profile : Option ProfileDict) (policies : List PolicyDict) :
    ∀ m ∈ systemBlock context_summary customer_profile policies,
      m.role = "system" := by
  intro m hm
  unfold systemBlock at hm
  simp only [List.mem_append] at hm
  rcases hm with (hm | hm) | hm
  · split at hm <;> simp_all
  · cases customer_profile <;> simp_all
  · split at hm <;> simp_all

/-- Source `_compress_context` on a system block followed by more than 30
non-system messages: all system messages survive, exactly the last 30
conversational messages survive, and one synthetic summary message built
from the first and last discarded conversational messages is inserted
between them. -/
theorem compress_context_split (sys conv : List Msg)
    (hs : ∀ m ∈ sys, m.role = "system")
    (hc : ∀ m ∈ conv, m.role ≠ "system")
    (h30 : 30 < conv.length) :
    compress_context (sys ++ conv) =
      sys ++
      [⟨"system", "Conversation summary: " ++
        ("Previous conversation (" ++ toString (conv.length - 30) ++
          " messages): " ++ strTake (conv.headD emptyMsg).content 100 ++
          "... " ++
          strTake ((conv.take (conv.length - 30)).getLastD emptyMsg).content 100)⟩] ++
      conv.drop (conv.length - 30) := by
  unfold compress_context
  have hfilter : (sys ++ conv).filter (fun m => m.role == "system") = sys := by
    rw [List.filter_append]
    rw [List.filter_eq_self.mpr (by intro a ha; simpa using hs a ha)]
    rw [List.filter_eq_nil_iff.mpr (by intro a ha; simpa using hc a ha)]
    simp
  rw [hfilter]
  have hlen : (sys ++ conv).length = sys.length + conv.length := by
    simp
  have hdrop : (sys ++ conv).drop ((sys ++ conv).length - 30) =
      conv.drop (conv.length - 30) := by
    rw [hlen, show sys.length + conv.length - 30 = sys.length + (conv.length - 30) from by omega]
    exact List.drop_append _
  have hmiddle : compressMiddle (sys ++ conv) sys.length =
      conv.take (conv.length - 30) := by
    unfold compressMiddle
    rw [List.drop_left, hlen,
      show sys.length + conv.length - 30 - sys.length = conv.length - 30 from by omega]
  rw [hdrop, hmiddle]
  have hne : (conv.take (conv.length - 30)).isEmpty = false := by
    rw [List.isEmpty_eq_false_iff_exists_mem]
    rcases conv with _ | ⟨c, cs⟩
    · simp at h30
    · refine ⟨c, ?_⟩
      have hpos : 0 < (c :: cs).length - 30 := by simp at h30 ⊢; omega
      rcases h : (c :: cs).length - 30 with _ | n
      · omega
      · simp [List.take_cons]
  rw [if_neg (by simp [hne])]
  have hlen30 : (conv.take (conv.length - 30)).length = conv.length - 30 := by
    rw [List.length_take]; omega
  have hhead : (conv.take (conv.length - 30)).headD emptyMsg = conv.headD emptyMsg := by
    rcases conv with _ | ⟨c, cs⟩
    · rfl
    · have hpos : 0 < (c :: cs).length - 30 := by simp at h30 ⊢; omega
      rcases h : (c :: cs).length - 30 with _ | n
      · omega
      · simp [List.take_cons]
  unfold compressSummary
  rw [hlen30, hhead]

/-- C7: whenever the assembled context (system block followed by the
conversational history) exceeds the token ceiling and the history holds
more than 30 conversational messages (at most the 50 that `build_context`
retains), the built context is exactly: all system messages, one synthetic
summary message built from the first 100 characters of the first and last
discarded conversational messages, and the last 30 conversational
messages. -/
theorem build_context_compression_spec (context_summary : String)
    (customer_profile : Option ProfileDict) (policies : List PolicyDict)
    (history : List Msg)
    (hlen : history.length ≤ 50)
    (h30 : 30 < history.length)
    (hroles : ∀ m ∈ history, m.role ≠ "system")
    (hover : MAX_CONTEXT_TOKENS < estimate_tokens
      (systemBlock context_summary customer_profile policies ++ history)) :
    build_context context_summary customer_profile policies history =
      systemBlock context_summary customer_profile policies ++
      [⟨"system", "Conversation summary: " ++
        ("Previous conversation (" ++ toString (history.length - 30) ++
          " messages): " ++ strTake (history.headD emptyMsg).content 100 ++
          "... " ++
          strTake ((history.take (history.length - 30)).getLastD emptyMsg).content 100)⟩] ++
      history.drop (history.length - 30) := by
  unfold build_context
  have hrecent : history.drop (history.length - MAX_CONTEXT_MESSAGES) = history := by
    have : history.length - MAX_CONTEXT_MESSAGES = 0 := by
      unfold MAX_CONTEXT_MESSAGES; omega
    rw [this, List.drop_zero]
  rw [hrecent, if_pos hover]
  exact compress_context_split _ _
    (systemBlock_roles context_summary customer_profile policies) hroles h30

/-- A 1040-character message content, large enough that 31 copies exceed
the 8000-token context ceiling; used by the C7 witness. -/
def longMsgContent : String := String.mk (List.replicate 1040 'a')

/-- A 31-message conversational history used by the C7 witness. -/
def wideHistory : List Msg := List.replicate 31 ⟨"user", longMsgContent⟩

set_option maxRecDepth 20000 in
/-- Witness for C7: a 31-message history of 1040-character user messages
(no system block) exceeds the token ceiling, and the built context is one
synthetic summary message followed by the last 30 messages. -/
theorem build_context_compression_spec_witness :
    (wideHistory.length ≤ 50 ∧ 30 < wideHistory.length ∧
      (∀ m ∈ wideHistory, m.role ≠ "system") ∧
      MAX_CONTEXT_TOKENS < estimate_tokens
        (systemBlock "" Option.none [] ++ wideHistory)) ∧
    build_context "" Option.none [] wideHistory =
      systemBlock "" Option.none [] ++
      [⟨"system", "Conversation summary: " ++
        ("Previous conversation (" ++ toString (wideHistory.length - 30) ++
          " messages): " ++ strTake (wideHistory.headD emptyMsg).content 100 ++
          "... " ++
          strTake ((wideHistory.take (wideHistory.length - 30)).getLastD emptyMsg).content 100)⟩] ++
      wideHistory.drop (wideHistory.length - 30) := by
  refine ⟨⟨by decide, by decide, by decide, by decide⟩, ?_⟩
  exact build_context_compression_spec "" Option.none [] wideHistory
    (by decide) (by decide) (by decide) (by decide)

/-! ## Session serialization — `app/src/services/session_manager.py`

`SessionManager._serialize` writes enum values as their strings and both
timestamps as `dt.astimezone(timezone.utc).isoformat()`;
`SessionManager._deserialize` parses them back with the enum constructors
and `datetime.fromisoformat`.  A timezone-aware datetime is modelled as an
absolute instant plus a UTC offset; `isoformat` on a UTC-normalized aware
datetime and `fromisoformat` are mutually inverse, so the wire string is
modelled by the UTC-normalized datetime it denotes.  Python `==` on aware
datetimes compares instants, ignoring the offset representation. -/

/-- A timezone-aware Python datetime: absolute instant (microseconds since
epoch) plus a UTC offset in minutes. -/
structure AwareDateTime where
  instantMicros : Int
  offsetMinutes : Int
  deriving DecidableEq, Repr

/-- Python `dt.astimezone(timezone.utc)`: same instant, offset zero. -/
def astimezoneUtc (dt : AwareDateTime) : AwareDateTime :=
  ⟨dt.instantMicros, 0⟩

/-- Python `==` on aware datetimes: equality of instants. -/
def pyDtEq (a b : AwareDateTime) : Prop :=
  a.instantMicros = b.instantMicros

/-- The ISO-8601 string written by `dt_to_str`, identified with the
UTC-normalized aware datetime it denotes (`isoformat`/`fromisoformat` are
mutually inverse on these). -/
structure IsoTimestamp where
  denoted : AwareDateTime
  deriving DecidableEq, Repr

/-- Source `dt_to_str` inside `_serialize` (session_manager.py, lines 123-124). -/
def dt_to_str (dt : AwareDateTime) : IsoTimestamp :=
  ⟨astimezoneUtc dt⟩

/-- Source `parse_dt` inside `_deserialize` (session_manager.py, lines 142-143):
`datetime.fromisoformat` recovers the denoted datetime. -/
def parse_dt (t : IsoTimestamp) : AwareDateTime :=
  t.denoted

/-- Source `ConversationStage.value` — the string value of each member
(session_manager.py, lines 14-22). -/
def stageValue : ConversationStage → String
  | ConversationStage.introduction => "introduction"
  | ConversationStage.qualification => "qualification"
  | ConversationStage.information => "information"
  | ConversationStage.persuasion => "persuasion"
  | ConversationStage.objectionHandling => "objection_handling"
  | ConversationStage.informationCollection => "information_collection"
  | ConversationStage.closing => "closing"
  | ConversationStage.ended => "ended"

/-- Source `ConversationStage(value)` — the enum constructor, which raises
`ValueError` (here `Option.none`) on an unknown value. -/
def stageFromValue (v : String) : Option ConversationStage :=
  if v = "introduction" then some ConversationStage.introduction
  else if v = "qualification" then some ConversationStage.qualification
  else if v = "information" then some ConversationStage.information
  else if v = "persuasion" then some ConversationStage.persuasion
  else if v = "objection_handling" then some ConversationStage.objectionHandling
  else if v = "information_collection" then some ConversationStage.informationCollection
  else if v = "closing" then some ConversationStage.closing
  else if v = "ended" then some ConversationStage.ended
  else Option.none

/-- Source `InterestLevel.value` (session_manager.py, lines 25-29). -/
def interestValue : InterestLevel → String
  | InterestLevel.none => "none"
  | InterestLevel.low => "low"
  | InterestLevel.medium => "medium"
  | InterestLevel.high => "high"

/-- Source `InterestLevel(value)`; `Option.none` models the `ValueError` raised on
an unknown value. -/
def interestFromValue (v : String) : Option InterestLevel :=
  if v = "none" then some InterestLevel.none
  else if v = "low" then some InterestLevel.low
  else if v = "medium" then some InterestLevel.medium
  else if v = "high" then some InterestLevel.high
  else Option.none

/-- A `SessionState` together with its two timestamp fields
(session_manager.py, lines 80-81), which the serialization round-trips. -/
structure TimedSessionState where
  core : SessionState
  created_at : AwareDateTime
  last_activity : AwareDateTime
  deriving DecidableEq, Repr

/-- The JSON dictionary produced by `_serialize` (session_manager.py, lines
126-139): enum fields as value strings, dataclasses as their field
dictionaries (`asdict` followed by `CustomerProfile(**...)` /
`CollectedData(**...)` is the identity, so they are carried as records),
timestamps as ISO strings. -/
structure SessionPayload where
  session_id : String
  conversation_id : Nat
  conversation_stage : String
  customer_profile : CustomerProfile
  collected_data : CollectedData
  interest_level : String
  message_count : Nat
  context_summary : String
  awaiting_confirmation : Bool
  confirmation_attempts : Nat
  created_at : IsoTimestamp
  last_activity : IsoTimestamp
  deriving DecidableEq, Repr

/-- Source `SessionManager._serialize` (session_manager.py, lines 122-139). -/
def _serialize (s : TimedSessionState) : SessionPayload :=
  { session_id := s.core.session_id
    conversation_id := s.core.conversation_id
    conversation_stage := stageValue s.core.conversation_stage
    customer_profile := s.core.customer_profile
    collected_data := s.core.collected_data
    interest_level := interestValue s.core.interest_level
    message_count := s.core.message_count
    context_summary := s.core.context_summary
    awaiting_confirmation := s.core.awaiting_confirmation
    confirmation_attempts := s.core.confirmation_attempts
    created_at := dt_to_str s.created_at
    last_activity := dt_to_str s.last_activity }

/-- Source `SessionManager._deserialize` (session_manager.py, lines 141-158);
`Option.none` models the exceptions the enum constructors can raise. -/
def _deserialize (p : SessionPayload) : Option TimedSessionState :=
  match stageFromValue p.conversation_stage, interestFromValue p.interest_level with
  | some stage, some interest =>
    some
      { core :=
          { session_id := p.session_id
            conversation_id := p.conversation_id
            conversation_stage := stage
            customer_profile := p.customer_profile
            collected_data := p.collected_data
            interest_level := interest
            message_count := p.message_count
            context_summary := p.context_summary
            awaiting_confirmation := p.awaiting_confirmation
            confirmation_attempts := p.confirmation_attempts }
        created_at := parse_dt p.created_at
        last_activity := parse_dt p.last_activity }
  | _, _ => Option.none

/-- Enum value strings parse back to the same member. -/
theorem stageFromValue_stageValue (st : ConversationStage) :
    stageFromValue (stageValue st) = some st := by
  cases st <;> rfl

/-- Interest value strings parse back to the same member. -/
theorem interestFromValue_interestValue (lvl : InterestLevel) :
    interestFromValue (interestValue lvl) = some lvl := by
  cases lvl <;> rfl

/-- C10: `_deserialize` after `_serialize` succeeds on every timezone-aware
session state and returns a state whose non-timestamp fields all equal the
originals and whose two timestamps are Python-equal (same instant, offset
normalized to UTC) to the originals. -/
theorem deserialize_serialize_roundtrip (s : TimedSessionState) :
    _deserialize (_serialize s) =
      some ⟨s.core, astimezoneUtc s.created_at, astimezoneUtc s.last_activity⟩ ∧
    pyDtEq (astimezoneUtc s.created_at) s.created_at ∧
    pyDtEq (astimezoneUtc s.last_activity) s.last_activity := by
  refine ⟨?_, rfl, rfl⟩
  unfold _deserialize _serialize
  simp only [stageFromValue_stageValue, interestFromValue_interestValue]
  rfl

/-! ## Conversation orchestration — `app/src/services/conversation_service.py`

One turn of `ConversationService.process_message` is modelled as a pure
function of the session state, the raw customer message, and a record of
oracles for the outcomes of the external calls the turn makes (LLM intent
classification, entity extraction, ambiguity analysis, reply generation,
lead creation, database commit).  The database message log and the
Redis writes are not part of the modelled state; the number of leads
durably created during the turn is returned explicitly. -/

/-- Source `Intent` enum (llm_provider.py, lines 8-17). -/
inductive Intent
  | greeting
  | question
  | objection
  | interest
  | exit
  | informationRequest
  | policyComparison
  | unknown
  deriving DecidableEq, Repr

/-- Source `InformationExtractionService.sanitize_input`
(information_extraction_service.py, lines 80-92): strip, collapse
whitespace, hard-truncate to 2000 characters. -/
def sanitize_input (message : String) : String :=
  let s := pyJoinSplit (pyStrip message)
  if 2000 < s.length then strTake s 2000 else s

/-- Keyword fallback of `ConversationService.detect_intent`
(conversation_service.py, lines 1048-1062). -/
def detect_intent_keyword (message : String) : Intent :=
  let ml := pyLower message
  if anyKeywordIn ["hello", "hi", "hey", "greetings"] ml then Intent.greeting
  else if anyKeywordIn ["not interested", "no thanks", "no", "stop"] ml then Intent.exit
  else if anyKeywordIn ["expensive", "cost", "too much", "afford"] ml then Intent.objection
  else if anyKeywordIn ["interested", "want", "apply", "sign up"] ml then Intent.interest
  else if pyContains message "?" then Intent.question
  else Intent.unknown

/-- Source `ConversationService.detect_intent` (conversation_service.py, lines
1025-1062): the LLM classification result when that call (wrapped in the
retry coordinator) succeeds, otherwise the keyword fallback. -/
def detect_intent (llmIntent : Option Intent) (message : String) : Intent :=
  match llmIntent with
  | some i => i
  | none => detect_intent_keyword message

/-- Source `ConversationService._is_exit_signal` (conversation_service.py, lines
488-507). -/
def _is_exit_signal (message : String) (intent : Intent) : Bool :=
  anyKeywordIn
    ["not interested", "no thanks", "i'll pass", "i don't want",
     "maybe later", "i have to go", "thanks but no", "not for me"]
    (pyLower message) || intent == Intent.exit

/-- Source `ConversationService._is_profile_complete` (conversation_service.py,
lines 1021-1023): `bool(profile.age and profile.purpose)`. -/
def _is_profile_complete (profile : CustomerProfile) : Bool :=
  pyTruthyNat profile.age && pyTruthy profile.purpose

/-- Source `ConversationService._determine_stage` (conversation_service.py, lines
998-1019). -/
def _determine_stage (state : SessionState) (intent : Intent) : ConversationStage :=
  if state.conversation_stage = ConversationStage.ended then
    ConversationStage.ended
  else if (state.interest_level = InterestLevel.high ||
      state.interest_level = InterestLevel.medium) &&
      !state.collected_data.is_complete then
    ConversationStage.informationCollection
  else if intent = Intent.objection then
    ConversationStage.objectionHandling
  else if state.conversation_stage = ConversationStage.introduction then
    if _is_profile_complete state.customer_profile then ConversationStage.information
    else ConversationStage.qualification
  else
    state.conversation_stage

/-- C2: whatever the classified intent, interest level, and collected data,
`_determine_stage` maps a session whose stage is Ended to Ended — no
transition leaves the Ended stage. -/
theorem determine_stage_ended_terminal (state : SessionState) (intent : Intent)
    (h : state.conversation_stage = ConversationStage.ended) :
    _determine_stage state intent = ConversationStage.ended := by
  unfold _determine_stage
  rw [if_pos h]

/-- Witness for C2: a concrete Ended session with High interest, incomplete
collected data, and an Objection intent still maps to Ended. -/
theorem determine_stage_ended_terminal_witness :
    _determine_stage
      { session_id := "s", conversation_id := 1,
        conversation_stage := ConversationStage.ended,
        interest_level := InterestLevel.high }
      Intent.objection = ConversationStage.ended :=
  determine_stage_ended_terminal
    { session_id := "s", conversation_id := 1,
      conversation_stage := ConversationStage.ended,
      interest_level := InterestLevel.high }
    Intent.objection rfl

/-! ### Ambiguity handling — `app/src/services/ambiguity_detection_service.py` -/

/-- Source `AmbiguityResult` dataclass (ambiguity_detection_service.py, lines
8-16); `possible_interpretations = []` models both `None` and an empty
list (their Python truthiness agrees everywhere the field is read). -/
structure AmbiguityResult where
  is_ambiguous : Bool
  ambiguity_type : Option String := Option.none
  ambiguous_phrases : List String := []
  possible_interpretations : List String := []
  context_needed : Option String := Option.none
  deriving DecidableEq, Repr

/-- The `context_for_ambiguity` dictionary built by `process_message`
(conversation_service.py, lines 166-171). -/
structure AmbContext where
  conversation_stage : String
  interest_level : String
  recent_topics : List String
  policies_discussed : List String
  deriving DecidableEq, Repr

/-- Source `ConversationService._extract_recent_topics` (conversation_service.py,
lines 1199-1215): scans the messages in order, appending each of the four
topics the first time one of its keywords occurs, and keeps the first 3. -/
def _extract_recent_topics (recent : List Msg) : List String :=
  (recent.foldl
    (fun acc msg =>
      let content := pyLower msg.content
      let acc := if anyKeywordIn ["policy", "coverage", "insurance", "plan"] content &&
          !acc.contains "policy" then acc ++ ["policy"] else acc
      let acc := if anyKeywordIn ["premium", "cost", "price", "payment"] content &&
          !acc.contains "premium" then acc ++ ["premium"] else acc
      let acc := if anyKeywordIn ["term", "years", "duration", "period"] content &&
          !acc.contains "term" then acc ++ ["term"] else acc
      if anyKeywordIn ["medical", "exam", "health", "medical exam"] content &&
          !acc.contains "medical" then acc ++ ["medical"] else acc)
    []).take 3

/-- The text `" ".join(content of assistant messages among the last 3)`
used by the pronoun branch of `_can_resolve_ambiguity_with_context`
(conversation_service.py, line 1234). -/
def recentAssistantText (recent : List Msg) : String :=
  pyLower (String.intercalate " "
    (((recent.drop (recent.length - 3)).filter
      (fun m => m.role == "assistant")).map (fun m => m.content)))

/-- Source `ConversationService._can_resolve_ambiguity_with_context`
(conversation_service.py, lines 1217-1265).  `recent` is the
most-recent-first message list produced by `_get_recent_messages`, so
Python's `recent_messages[-1]` is its last element. -/
def _can_resolve_ambiguity_with_context (ar : AmbiguityResult)
    (ctx : AmbContext) (recent : List Msg) : Bool :=
  if ar.is_ambiguous = false then true
  else if ar.ambiguity_type = some "pronoun" then
    if ctx.policies_discussed.length = 1 then true
    else if anyKeywordIn ["term life", "whole life", "policy", "coverage"]
        (recentAssistantText recent) then
      decide (ctx.policies_discussed.length ≤ 2)
    else false
  else if ar.ambiguity_type = some "vague" then
    !recent.isEmpty && (recent.getLastD emptyMsg).role == "assistant" &&
      anyKeywordIn ["policy", "coverage", "premium", "term"]
        (pyLower (recent.getLastD emptyMsg).content)
  else false

/-- The template step of
`AmbiguityDetectionService.generate_clarification_request`
(ambiguity_detection_service.py, lines 228-289). -/
def clarificationTemplate (ar : AmbiguityResult) (ctx : AmbContext) : String :=
  let context_info : List String :=
    (if ctx.policies_discussed ≠ [] then
      ["Policies we discussed: " ++
        String.intercalate ", " (ctx.policies_discussed.take 3)] else []) ++
    (if ctx.recent_topics ≠ [] then
      ["Recent topics: " ++ String.intercalate ", " (ctx.recent_topics.take 2)]
     else [])
  let context_text := if context_info ≠ [] then
    String.intercalate " " context_info else ""
  if ar.ambiguity_type = some "pronoun" then
    if ctx.policies_discussed ≠ [] then
      "I'd be happy to help! Which policy are you referring to? We discussed " ++
        String.intercalate ", " (ctx.policies_discussed.take 3) ++ "."
    else if context_text ≠ "" then
      "I want to make sure I understand. " ++ context_text ++
        " Could you please clarify what specifically you're referring to?"
    else
      "I'd be happy to help! Could you please clarify what you're referring to? For example, are you asking about a specific policy, coverage details, or something else?"
  else if ar.ambiguity_type = some "vague" then
    if context_text ≠ "" then
      "Of course! " ++ context_text ++
        " Would you like more details about what we just discussed, or something else?"
    else if ctx.policies_discussed ≠ [] then
      "I'd be happy to provide more information! Would you like more details about the policy we just discussed, or something else?"
    else
      "I'd be happy to provide more information! What specifically would you like to know more about?"
  else if ar.ambiguity_type = some "contradictory" then
    "I understand you might have mixed feelings about this. Could you help me understand what concerns you most about life insurance, and what aspects might interest you?"
  else if ar.ambiguity_type = some "multiple_interpretations" then
    if ar.possible_interpretations ≠ [] then
      "I want to make sure I understand correctly. Are you asking about:\n" ++
        String.intercalate "\n"
          ((ar.possible_interpretations.take 3).map (fun i => "- " ++ i)) ++
        "\n\nPlease let me know which one, or clarify what you mean."
    else
      "I want to make sure I understand correctly. Could you please clarify what you mean?"
  else
    match ar.context_needed with
    | some cn =>
      if cn ≠ "" then "To help you better, I need a bit more information: " ++ cn
      else "I want to make sure I understand correctly. Could you please provide a bit more detail?"
    | Option.none =>
      "I want to make sure I understand correctly. Could you please provide a bit more detail?"

/-- Source `AmbiguityDetectionService.generate_clarification_request`
(ambiguity_detection_service.py, lines 211-315): empty for a non-ambiguous
result, else the per-type template, optionally replaced by the best-effort
LLM polish (`polish`) when that call returned a stripped text longer than
10 characters; a failed polish call (`Option.none`) keeps the template. -/
def generate_clarification_request (ar : AmbiguityResult) (ctx : AmbContext)
    (polish : Option String) : String :=
  if ar.is_ambiguous = false then ""
  else
    let clarification := clarificationTemplate ar ctx
    match polish with
    | some refined =>
      let r := pyStrip refined
      if r ≠ "" && 10 < r.length then r else clarification
    | Option.none => clarification

/-! ### The confirm-before-save sub-protocol — conversation_service.py -/

/-- The dictionary `extract_information` returns, restricted to the keys
the conversation service reads (conversation_service.py, lines 240-260 and
790-802); an absent or falsy value is `Option.none`. -/
structure ExtractedData where
  age : Option Nat := Option.none
  name : Option String := Option.none
  phone : Option String := Option.none
  email : Option String := Option.none
  address : Option String := Option.none
  nid : Option String := Option.none
  policy : Option String := Option.none
  deriving DecidableEq, Repr

/-- An empty extraction result. -/
def emptyExtracted : ExtractedData := {}

/-- Outcomes of the external calls one `process_message` turn can make;
each field stands for the result of the corresponding I/O operation (after
any retry wrapping at that call site).  `llmAvailable` is
`self.llm_provider is not None`, which also controls whether the
extraction and ambiguity services exist (conversation_service.py, lines
67-68). -/
structure TurnOracles where
  llmAvailable : Bool
  ambiguity : AmbiguityResult := { is_ambiguous := false }
  recentMessages : List Msg := []
  policiesDiscussed : List String := []
  clarificationPolish : Option String := Option.none
  llmIntent : Option Intent := Option.none
  extracted : ExtractedData := {}
  llmReply : Option String := Option.none
  llmInfoReply : Option String := Option.none
  llmCorrectionField : Option String := Option.none
  correctionExtracted : ExtractedData := {}
  leadServiceAvailable : Bool := false
  leadCreateOk : Bool := false
  commitOk : Bool := false
  objectionReply : String := ""
  genericPick : Fin 3 := 0

/-- Result of one modelled turn: the (filtered) reply text, the stage and
interest level reported in the `ConversationResponse`, the session state
as saved, the number of leads durably created, and whether the step-9
reply-generation LLM call was made. -/
structure TurnOutcome where
  reply : String
  responseStage : ConversationStage
  responseInterest : InterestLevel
  newState : SessionState
  leadsCreated : Nat
  llmReplyGenerated : Bool
  deriving Repr

/-- Python `x or default` on an optional string. -/
def pyOr (o : Option String) (d : String) : String :=
  if pyTruthy o then o.getD "" else d

/-- Source `ConversationService._generate_information_summary`
(conversation_service.py, lines 637-660). -/
def _generate_information_summary (state : SessionState) : String :=
  let collected := state.collected_data
  String.intercalate "\n"
    (["Here's a summary of the information I've collected:", "",
      "**Full Name:** " ++ pyOr collected.full_name "Not provided",
      "**Phone Number:** " ++ pyOr collected.phone_number "Not provided",
      "**National ID:** " ++ pyOr collected.nid "Not provided",
      "**Address:** " ++ pyOr collected.address "Not provided",
      "**Policy of Interest:** " ++ pyOr collected.policy_of_interest "Not provided"] ++
     (if pyTruthy collected.email then
       ["**Email:** " ++ collected.email.getD ""] else []) ++
     (if pyTruthy collected.preferred_contact_time then
       ["**Preferred Contact Time:** " ++ collected.preferred_contact_time.getD ""] else []) ++
     (if pyTruthy collected.notes then
       ["**Notes:** " ++ collected.notes.getD ""] else []) ++
     ["",
      "Is this information correct? Please reply 'Yes' if it's correct, or tell me what needs to be changed."])

/-- The fallback question for the next missing mandatory field
(conversation_service.py, lines 605-618). -/
def askNextMissing (state : SessionState) : String :=
  if !pyTruthy state.collected_data.full_name then
    "Could you please provide your full name?"
  else if !pyTruthy state.collected_data.phone_number then
    "Could you please provide your phone number?"
  else if !pyTruthy state.collected_data.nid then
    "Could you please provide your National ID?"
  else if !pyTruthy state.collected_data.address then
    "Could you please provide your address?"
  else if !pyTruthy state.collected_data.policy_of_interest then
    "Which policy are you interested in?"
  else
    "I'd like to collect some information from you. Could you please provide your full name?"

/-- The keyword step of `ConversationService._extract_correction_field`
(conversation_service.py, lines 885-910): the first field (in dictionary
order name, phone, nid, address, policy, email) with a keyword in the
message, provided a correction word also occurs, mapped to its display
name. -/
def _extract_correction_field_keyword (message : String) : Option String :=
  let ml := pyLower message
  if !anyKeywordIn ["wrong", "incorrect", "change", "different", "update", "correct"] ml then
    Option.none
  else if anyKeywordIn ["name", "full name"] ml then some "full name"
  else if anyKeywordIn ["phone", "phone number", "mobile", "telephone"] ml then some "phone number"
  else if anyKeywordIn ["national id", "nid", "id", "national identification"] ml then some "National ID"
  else if anyKeywordIn ["address", "location", "where i live"] ml then some "address"
  else if anyKeywordIn ["policy", "insurance", "plan"] ml then some "policy of interest"
  else if anyKeywordIn ["email", "e-mail", "mail"] ml then some "email"
  else Option.none

/-- Source `ConversationService._extract_correction_field` (conversation_service.py,
lines 885-942): keyword match first; otherwise, when the LLM is available
and its (retried) extraction call returned `llmField` (already lowered and
stripped, per line 925), accept it if it is not "none" and mentions one of
the six field words. -/
def _extract_correction_field (message : String) (llmAvailable : Bool)
    (llmField : Option String) : Option String :=
  match _extract_correction_field_keyword message with
  | some f => some f
  | Option.none =>
    if llmAvailable then
      match llmField with
      | some ext =>
        if ext ≠ "none" &&
            anyKeywordIn ["name", "phone", "nid", "address", "policy", "email"] ext then
          some ext
        else Option.none
      | Option.none => Option.none
    else Option.none

/-- The `field_to_key` lookup (conversation_service.py, lines 792-800)
applied to `correctionExtracted`: the extracted value for the field being
corrected, `Option.none` when the key is unknown or its value falsy. -/
def correctionValueFor (fieldLower : String) (ext : ExtractedData) : Option String :=
  let v : Option String :=
    if fieldLower = "full name" then ext.name
    else if fieldLower = "phone number" then ext.phone
    else if fieldLower = "national id" then ext.nid
    else if fieldLower = "address" then ext.address
    else if fieldLower = "policy of interest" then ext.policy
    else if fieldLower = "email" then ext.email
    else Option.none
  if pyTruthy v then v else Option.none

/-- The attribute named by the `field_map` lookup (conversation_service.py,
lines 806-814), as an update function on `CollectedData`; `Option.none`
when the display name is not in the map. -/
def setCollectedField (fieldLower : String) (value : Option String)
    (d : CollectedData) : Option CollectedData :=
  if fieldLower = "full name" then some { d with full_name := value }
  else if fieldLower = "phone number" then some { d with phone_number := value }
  else if fieldLower = "national id" then some { d with nid := value }
  else if fieldLower = "address" then some { d with address := value }
  else if fieldLower = "policy of interest" then some { d with policy_of_interest := value }
  else if fieldLower = "email" then some { d with email := value }
  else Option.none

/-- Source `confirmation_keywords` (conversation_service.py, line 691). -/
def confirmationKeywords : List String :=
  ["yes", "correct", "right", "that's right", "that is correct",
   "looks good", "ok", "okay", "confirm", "proceed"]

/-- Source `denial_keywords` (conversation_service.py, line 696). -/
def denialKeywords : List String :=
  ["no", "wrong", "incorrect", "that's wrong", "that is wrong", "change", "correction"]

/-- The correction branch of `_handle_confirmation_response`
(conversation_service.py, lines 778-857), entered with
`awaiting_confirmation` already cleared and `confirmation_attempts`
incremented (`stateC`). -/
def confirmationCorrectionBranch (stateC : SessionState)
    (field_to_correct : Option String) (o : TurnOracles) : TurnOutcome :=
  let done (st : SessionState) (reply : String) : TurnOutcome :=
    { reply := filter_response reply
      responseStage := ConversationStage.informationCollection
      responseInterest := stateC.interest_level
      newState := st
      leadsCreated := 0
      llmReplyGenerated := false }
  match field_to_correct with
  | Option.none =>
    done stateC
      "Could you please tell me which information needs to be corrected? For example, you can say 'the phone number is wrong' or 'change my address'."
  | some f =>
    let corrected_value :=
      if o.llmAvailable then correctionValueFor (pyLower f) o.correctionExtracted
      else Option.none
    match corrected_value with
    | some v =>
      match setCollectedField (pyLower f) (some v) stateC.collected_data with
      | some newCollected =>
        if newCollected.is_complete then
          let st := { stateC with
            collected_data := newCollected
            awaiting_confirmation := true
            confirmation_attempts := 1 }
          done st ("I've updated your " ++ f ++ ". " ++ _generate_information_summary st)
        else
          done { stateC with collected_data := newCollected }
            ("I've updated your " ++ f ++
              ". Thank you! Let me continue collecting the remaining information.")
      | Option.none =>
        done stateC
          ("I'll help you correct that. Could you please provide your correct " ++ f ++ "?")
    | Option.none =>
      match setCollectedField (pyLower f) Option.none stateC.collected_data with
      | some newCollected =>
        done { stateC with collected_data := newCollected }
          ("I'll help you correct that. Could you please provide your correct " ++ f ++ "?")
      | Option.none =>
        done stateC
          ("I'll help you correct that. Could you please provide your correct " ++ f ++ "?")

/-- Source `ConversationService._handle_confirmation_response`
(conversation_service.py, lines 677-883). -/
def _handle_confirmation_response (state : SessionState) (message : String)
    (o : TurnOracles) : TurnOutcome :=
  let ml := pyLower (pyStrip message)
  let posConf := anyKeywordIn confirmationKeywords ml
  let denial := anyKeywordIn denialKeywords ml
  let confirmed := posConf && !denial
  let field_to_correct :=
    if denial then _extract_correction_field message o.llmAvailable o.llmCorrectionField
    else Option.none
  if confirmed then
    let state1 := { state with awaiting_confirmation := false, confirmation_attempts := 0 }
    let success (reply : String) (leads : Nat) : TurnOutcome :=
      { reply := filter_response reply
        responseStage := ConversationStage.closing
        responseInterest := state.interest_level
        newState := state1
        leadsCreated := leads
        llmReplyGenerated := false }
    if o.leadServiceAvailable then
      if o.leadCreateOk then
        if o.commitOk then
          success "Thank you for confirming! Your information has been saved successfully. Our team will contact you soon." 1
        else success (get_database_error_message "save") 0
      else success (get_database_error_message "save") 0
    else
      success "Thank you for confirming! Your information has been saved. Our team will contact you soon." 0
  else if field_to_correct.isSome ||
      (!confirmed && anyKeywordIn ["wrong", "incorrect", "change", "different"] ml) then
    confirmationCorrectionBranch
      { state with
        awaiting_confirmation := false
        confirmation_attempts := state.confirmation_attempts + 1 }
      field_to_correct o
  else
    let state1 := { state with confirmation_attempts := state.confirmation_attempts + 1 }
    let reply :=
      if 2 ≤ state1.confirmation_attempts then
        "I want to make sure I understand. Please reply with 'Yes' if the information is correct, or tell me specifically what needs to be changed."
      else
        "Could you please confirm? Reply 'Yes' if the information is correct, or tell me what needs to be changed."
    { reply := filter_response reply
      responseStage := ConversationStage.informationCollection
      responseInterest := state.interest_level
      newState := state1
      leadsCreated := 0
      llmReplyGenerated := false }

/-- Source `ConversationService._handle_information_collection`
(conversation_service.py, lines 532-635). -/
def _handle_information_collection (state : SessionState) (message : String)
    (o : TurnOracles) : TurnOutcome :=
  if state.awaiting_confirmation then
    _handle_confirmation_response state message o
  else if state.collected_data.is_complete && !state.awaiting_confirmation then
    let state1 := { state with awaiting_confirmation := true, confirmation_attempts := 1 }
    { reply := filter_response (_generate_information_summary state)
      responseStage := ConversationStage.informationCollection
      responseInterest := state.interest_level
      newState := state1
      leadsCreated := 0
      llmReplyGenerated := false }
  else
    let llmReply := if o.llmAvailable then o.llmInfoReply else Option.none
    let reply :=
      match llmReply with
      | some r => if r ≠ "" then r else askNextMissing state
      | Option.none => askNextMissing state
    { reply := filter_response reply
      responseStage := ConversationStage.informationCollection
      responseInterest := state.interest_level
      newState := state
      leadsCreated := 0
      llmReplyGenerated := false }

/-! ### The remaining turn branches -/

/-- Source `ConversationService._handle_objection` (conversation_service.py, lines
944-996): the reply text (objection template or LLM-generated rebuttal) is
carried by the `objectionReply` oracle — no settled claim depends on its
content — and the session state is not modified by this branch. -/
def _handle_objection (state : SessionState) (o : TurnOracles) : TurnOutcome :=
  { reply := filter_response o.objectionReply
    responseStage := ConversationStage.objectionHandling
    responseInterest := state.interest_level
    newState := state
    leadsCreated := 0
    llmReplyGenerated := false }

/-- Source `ConversationService._handle_exit` (conversation_service.py, lines
509-530): emits the fixed exit message and ends the conversation
(`end_conversation` sets the session stage to Ended,
conversation_service.py line 433). -/
def _handle_exit (state : SessionState) : TurnOutcome :=
  { reply := "Thank you for your time. Feel free to reach out if you have questions in the future."
    responseStage := ConversationStage.ended
    responseInterest := InterestLevel.none
    newState := { state with conversation_stage := ConversationStage.ended }
    leadsCreated := 0
    llmReplyGenerated := false }

/-- The profile/collected-data merge of step 7 of `process_message`
(conversation_service.py, lines 239-262): each truthy extracted value
overwrites the profile field, and name/phone/email/address also overwrite
the corresponding `collected_data` field. -/
def mergeExtracted (state : SessionState) (e : ExtractedData) : SessionState :=
  { state with
    customer_profile := { state.customer_profile with
      age := if pyTruthyNat e.age then e.age else state.customer_profile.age
      name := if pyTruthy e.name then e.name else state.customer_profile.name
      phone := if pyTruthy e.phone then e.phone else state.customer_profile.phone
      email := if pyTruthy e.email then e.email else state.customer_profile.email
      address := if pyTruthy e.address then e.address else state.customer_profile.address }
    collected_data := { state.collected_data with
      full_name := if pyTruthy e.name then e.name else state.collected_data.full_name
      phone_number := if pyTruthy e.phone then e.phone else state.collected_data.phone_number
      email := if pyTruthy e.email then e.email else state.collected_data.email
      address := if pyTruthy e.address then e.address else state.collected_data.address } }

/-- Source `ConversationService._detect_interest_from_response`
(conversation_service.py, lines 1097-1110). -/
def _detect_interest_from_response (response : String) (state : SessionState) : InterestLevel :=
  if state.interest_level ≠ InterestLevel.none then state.interest_level
  else if anyKeywordIn ["interested", "want", "apply", "sign up", "next step"]
      (pyLower response) then InterestLevel.medium
  else InterestLevel.none

/-- The keyword intent hint computed for the fallback reply
(conversation_service.py, lines 357-365). -/
def fallbackIntentHint (sanitized : String) : Option String :=
  let ml := pyLower sanitized
  if anyKeywordIn ["hello", "hi", "hey"] ml then some "greeting"
  else if anyKeywordIn ["interested", "want", "need", "looking"] ml then some "interest"
  else if anyKeywordIn ["?", "what", "how", "tell me"] ml then some "question"
  else Option.none

/-- Steps 9-13 of `process_message` for the general generation path
(conversation_service.py, lines 272-413): the (retried) LLM reply when the
provider exists and the call succeeded with truthy content, otherwise the
stage/intent/interest fallback; then the response filter, the interest
update, the message-count increment, and the stage advance. -/
def generalPath (state : SessionState) (sanitized : String)
    (stage : ConversationStage) (o : TurnOracles) : TurnOutcome :=
  let llmContent := if o.llmAvailable then o.llmReply else Option.none
  let content :=
    match llmContent with
    | some c =>
      if c ≠ "" then c
      else get_fallback_response (some stage) (fallbackIntentHint sanitized)
        (some state.interest_level) o.genericPick
    | Option.none =>
      get_fallback_response (some stage) (fallbackIntentHint sanitized)
        (some state.interest_level) o.genericPick
  let filtered := filter_response content
  let interest := _detect_interest_from_response filtered state
  { reply := filtered
    responseStage := stage
    responseInterest := interest
    newState := { state with
      interest_level := interest
      message_count := state.message_count + 1
      conversation_stage := stage }
    leadsCreated := 0
    llmReplyGenerated := o.llmAvailable }

/-- The `context_for_ambiguity` dictionary of step 4
(conversation_service.py, lines 166-171). -/
def buildAmbContext (state : SessionState) (o : TurnOracles) : AmbContext :=
  { conversation_stage := stageValue state.conversation_stage
    interest_level := interestValue state.interest_level
    recent_topics := _extract_recent_topics o.recentMessages
    policies_discussed := o.policiesDiscussed.take 3 }

/-- Steps 5-13 of `process_message` (conversation_service.py, lines
220-413): intent detection, exit check, extraction merge, stage
determination, and dispatch to the information-collection, objection, or
general branch. -/
def turnAfterAmbiguity (state : SessionState) (sanitized : String)
    (o : TurnOracles) : TurnOutcome :=
  let intent := detect_intent (if o.llmAvailable then o.llmIntent else Option.none) sanitized
  if _is_exit_signal sanitized intent then
    _handle_exit state
  else
    let state1 := if o.llmAvailable then mergeExtracted state o.extracted else state
    let stage := _determine_stage state1 intent
    if stage = ConversationStage.informationCollection then
      _handle_information_collection state1 sanitized o
    else if stage = ConversationStage.objectionHandling then
      _handle_objection state1 o
    else
      generalPath state1 sanitized stage o

/-- Source `ConversationService.process_message` (conversation_service.py, lines
112-413) as one modelled turn: sanitize, run the ambiguity check (step 4)
and return the filtered clarification immediately when the input is
ambiguous, unresolvable from context, and the clarification text is
truthy; otherwise continue with `turnAfterAmbiguity`. -/
def process_message (state : SessionState) (userMessage : String)
    (o : TurnOracles) : TurnOutcome :=
  let sanitized := if o.llmAvailable then sanitize_input userMessage
    else pyStrip userMessage
  if o.llmAvailable && o.ambiguity.is_ambiguous &&
      !(_can_resolve_ambiguity_with_context o.ambiguity (buildAmbContext state o)
        o.recentMessages) then
    let clarification := generate_clarification_request o.ambiguity
      (buildAmbContext state o) o.clarificationPolish
    if clarification ≠ "" then
      { reply := filter_response clarification
        responseStage := state.conversation_stage
        responseInterest := state.interest_level
        newState := state
        leadsCreated := 0
        llmReplyGenerated := false }
    else turnAfterAmbiguity state sanitized o
  else turnAfterAmbiguity state sanitized o

/-- A sequence of turns: threads the saved session state and sums the
leads durably created. -/
def runTurns (state : SessionState) : List (String × TurnOracles) → SessionState × Nat
  | [] => (state, 0)
  | (msg, o) :: rest =>
    let out := process_message state msg o
    let next := runTurns out.newState rest
    (next.1, out.leadsCreated + next.2)

/-! ### Settling the conversation-protocol claims -/

/-- A non-empty string stays non-empty under right concatenation. -/
theorem str_append_ne_left (s t : String) (h : s ≠ "") : s ++ t ≠ "" := by
  intro he
  have hlen : (s ++ t).length = 0 := by rw [he]; rfl
  rw [String.length_append] at hlen
  apply h
  have hs : s.length = 0 := by omega
  cases s with
  | mk data =>
    cases data with
    | nil => rfl
    | cons c cs => simp [String.length] at hs

/-- The clarification template is non-empty for every ambiguity result and
context: every branch starts with a non-empty literal. -/
theorem clarificationTemplate_ne_empty (ar : AmbiguityResult) (ctx : AmbContext) :
    clarificationTemplate ar ctx ≠ "" := by
  unfold clarificationTemplate
  repeat' split
  all_goals first
    | decide
    | (apply str_append_ne_left; decide)
    | (apply str_append_ne_left; apply str_append_ne_left; decide)

/-- A clarification request for an ambiguous input is never empty: the
template is non-empty and an accepted LLM polish is non-empty by the
length-10 gate. -/
theorem generate_clarification_nonempty (ar : AmbiguityResult) (ctx : AmbContext)
    (polish : Option String) (h : ar.is_ambiguous = true) :
    generate_clarification_request ar ctx polish ≠ "" := by
  unfold generate_clarification_request
  rw [h]
  simp only [Bool.true_eq_false, if_false]
  cases polish with
  | none => exact clarificationTemplate_ne_empty ar ctx
  | some refined =>
    simp only []
    split
    · next hcond =>
      simp only [Bool.and_eq_true, decide_eq_true_eq] at hcond
      exact hcond.1
    · exact clarificationTemplate_ne_empty ar ctx

/-- C9: when the LLM provider exists, the turn's input is detected as
ambiguous, and `_can_resolve_ambiguity_with_context` cannot resolve it, the
turn returns the filtered clarification question immediately: the saved
session state is exactly the pre-turn state (stage, interest level,
message count, and collected data all unchanged), the response echoes the
old stage and interest level, no lead is created, and the step-9 LLM
reply-generation call is never made. -/
theorem ambiguous_early_return_spec (state : SessionState) (userMessage : String)
    (o : TurnOracles)
    (hllm : o.llmAvailable = true)
    (hamb : o.ambiguity.is_ambiguous = true)
    (hres : _can_resolve_ambiguity_with_context o.ambiguity
      (buildAmbContext state o) o.recentMessages = false) :
    process_message state userMessage o =
      { reply := filter_response (generate_clarification_request o.ambiguity
          (buildAmbContext state o) o.clarificationPolish)
        responseStage := state.conversation_stage
        responseInterest := state.interest_level
        newState := state
        leadsCreated := 0
        llmReplyGenerated := false } := by
  unfold process_message
  rw [hllm, hamb, hres]
  simp only [Bool.not_false, Bool.and_true, Bool.true_and, if_true]
  rw [if_pos (generate_clarification_nonempty o.ambiguity
    (buildAmbContext state o) o.clarificationPolish hamb)]

/-- A concrete session used by the C9 witness. -/
def c9State : SessionState :=
  { session_id := "s9", conversation_id := 9
    conversation_stage := ConversationStage.information
    interest_level := InterestLevel.low
    message_count := 4 }

/-- Concrete oracles for the C9 witness: a contradictory ambiguity with no
recent context, which `_can_resolve_ambiguity_with_context` never
auto-resolves. -/
def c9Oracles : TurnOracles :=
  { llmAvailable := true
    ambiguity := { is_ambiguous := true, ambiguity_type := some "contradictory" } }

/-- Witness for C9 at a concrete ambiguous turn. -/
theorem ambiguous_early_return_spec_witness :
    (c9Oracles.llmAvailable = true ∧ c9Oracles.ambiguity.is_ambiguous = true ∧
      _can_resolve_ambiguity_with_context c9Oracles.ambiguity
        (buildAmbContext c9State c9Oracles) c9Oracles.recentMessages = false) ∧
    process_message c9State "but actually yes I do want it, no wait" c9Oracles =
      { reply := filter_response (generate_clarification_request c9Oracles.ambiguity
          (buildAmbContext c9State c9Oracles) c9Oracles.clarificationPolish)
        responseStage := c9State.conversation_stage
        responseInterest := c9State.interest_level
        newState := c9State
        leadsCreated := 0
        llmReplyGenerated := false } := by
  refine ⟨⟨rfl, rfl, by decide⟩, ?_⟩
  exact ambiguous_early_return_spec c9State "but actually yes I do want it, no wait"
    c9Oracles rfl rfl (by decide)

set_option maxRecDepth 20000 in
/-- C4: on an affirmative confirmation whose lead creation or database
commit fails after the retries, the reply is exactly the generic
database-error "try again" message and every field of the collected data
is unchanged; no lead is durably created. -/
theorem confirmation_persistence_failure_spec (state : SessionState)
    (message : String) (o : TurnOracles)
    (hpos : anyKeywordIn confirmationKeywords (pyLower (pyStrip message)) = true)
    (hden : anyKeywordIn denialKeywords (pyLower (pyStrip message)) = false)
    (hlead : o.leadServiceAvailable = true)
    (hfail : o.leadCreateOk = false ∨ o.commitOk = false) :
    (_handle_confirmation_response state message o).reply =
      "I'm experiencing a temporary issue saving your information. Please try again in a moment, and your information will be saved." ∧
    (_handle_confirmation_response state message o).newState.collected_data =
      state.collected_data ∧
    (_handle_confirmation_response state message o).leadsCreated = 0 := by
  have hmsg : filter_response (get_database_error_message "save") =
      "I'm experiencing a temporary issue saving your information. Please try again in a moment, and your information will be saved." := by
    decide
  by_cases hco : o.leadCreateOk = true
  · have hcm : o.commitOk = false := by
      rcases hfail with h | h
      · rw [h] at hco; exact absurd hco (by simp)
      · exact h
    simp only [_handle_confirmation_response, hpos, hden, hlead, hco, hcm,
      Bool.not_false, Bool.and_self, Bool.true_and, Bool.and_true, if_true,
      Bool.false_eq_true, if_false, hmsg]
    exact ⟨trivial, trivial, trivial⟩
  · have hco' : o.leadCreateOk = false := by
      cases h : o.leadCreateOk
      · rfl
      · exact absurd h hco
    simp only [_handle_confirmation_response, hpos, hden, hlead, hco',
      Bool.not_false, Bool.and_self, Bool.true_and, Bool.and_true, if_true,
      Bool.false_eq_true, if_false, hmsg]
    exact ⟨trivial, trivial, trivial⟩

/-- A complete, awaiting-confirmation session for the C4 witness. -/
def c4State : SessionState :=
  { session_id := "s4", conversation_id := 4
    conversation_stage := ConversationStage.informationCollection
    collected_data := { full_name := some "Jane Doe"
                        phone_number := some "0123456789"
                        nid := some "NID123"
                        address := some "12 Main St"
                        policy_of_interest := some "Term Life" }
    interest_level := InterestLevel.high
    message_count := 12
    awaiting_confirmation := true
    confirmation_attempts := 1 }

/-- Oracles for the C4 witness: lead service present, lead creation fails
after retries. -/
def c4Oracles : TurnOracles :=
  { llmAvailable := false, leadServiceAvailable := true
    leadCreateOk := false, commitOk := true }

/-- Witness for C4 at the message "yes" with a failing lead creation. -/
theorem confirmation_persistence_failure_spec_witness :
    (anyKeywordIn confirmationKeywords (pyLower (pyStrip "yes")) = true ∧
      anyKeywordIn denialKeywords (pyLower (pyStrip "yes")) = false ∧
      c4Oracles.leadServiceAvailable = true ∧
      (c4Oracles.leadCreateOk = false ∨ c4Oracles.commitOk = false)) ∧
    ((_handle_confirmation_response c4State "yes" c4Oracles).reply =
      "I'm experiencing a temporary issue saving your information. Please try again in a moment, and your information will be saved." ∧
    (_handle_confirmation_response c4State "yes" c4Oracles).newState.collected_data =
      c4State.collected_data ∧
    (_handle_confirmation_response c4State "yes" c4Oracles).leadsCreated = 0) := by
  refine ⟨⟨by decide, by decide, rfl, Or.inl rfl⟩, ?_⟩
  exact confirmation_persistence_failure_spec c4State "yes" c4Oracles
    (by decide) (by decide) rfl (Or.inl rfl)

/-- The session state presupposed by the confirm-before-save scenario of
C3: all five mandatory fields collected, confirmation pending, interest
High, stored stage InformationCollection. -/
def confirmReadyState : SessionState :=
  { session_id := "s3", conversation_id := 3
    conversation_stage := ConversationStage.informationCollection
    collected_data := { full_name := some "Jane Doe"
                        phone_number := some "0123456789"
                        nid := some "NID123"
                        address := some "12 Main St"
                        policy_of_interest := some "Term Life" }
    interest_level := InterestLevel.high
    message_count := 10
    awaiting_confirmation := true
    confirmation_attempts := 1 }

/-- Turn oracles for the C3 run: no LLM provider, lead service present and
every persistence operation succeeding. -/
def confirmTurnOracles : TurnOracles :=
  { llmAvailable := false, leadServiceAvailable := true
    leadCreateOk := true, commitOk := true }

/-- C3 (failing run): the affirmative "yes" saves the lead once and the
response stage becomes Closing, but the saved session keeps stage
InformationCollection with the collected data still complete, so the next
"yes" re-presents the confirmation summary, re-arms
`awaiting_confirmation`, and a third "yes" creates a second lead: three
"yes" turns after reaching confirmation create two leads, not one. -/
theorem repeated_yes_creates_second_lead :
    (process_message confirmReadyState "yes" confirmTurnOracles).leadsCreated = 1 ∧
    (process_message confirmReadyState "yes" confirmTurnOracles).responseStage =
      ConversationStage.closing ∧
    ((runTurns confirmReadyState
      [("yes", confirmTurnOracles), ("yes", confirmTurnOracles)]).1).awaiting_confirmation = true ∧
    (runTurns confirmReadyState
      [("yes", confirmTurnOracles), ("yes", confirmTurnOracles),
       ("yes", confirmTurnOracles)]).2 = 2 := by
  refine ⟨by decide, by decide, by decide, by decide⟩

end LicAgent
